import Mathlib

/-!
Shallow embedding of the HTTP/1.x connection state machine in
`src/http/conn.rs`: the `(Reading, Writing)` state pair, the frame type, and
the `Conn` operations `read_head`, `read_body`, `read`, `write`, `poll_read`,
`poll_write` and `flush`. The transport, the incremental head parser
(`IoBuf::parse`), the body decoder (`h1::Decoder::decode`) and the buffer
implementation are outside the visible sources; each operation therefore takes
the observable outcome of those collaborators as an explicit input, and the
few of their functions whose result shape the connection inspects
(`Decoder::is_eof`, `Buffer::consume_leading_lines`) are modelled from the
spec, marked as such in their doc comments.
-/

namespace Hyper

/-- Rust enum `version::HttpVersion`; `Conn::read_head` only distinguishes
`Http10 | Http11` from the rest. -/
inductive HttpVersion where
  | http09
  | http10
  | http11
  | http20
deriving DecidableEq

/-- Protocol-level error type (the crate-level `Error` carried inside
`Frame::Error`): parse failures, unsupported versions, framing failures. -/
inductive HError where
  | parse
  | version
  | framing
deriving DecidableEq

/-- Rust `io::Error`, reduced to the kinds `Conn` constructs or inspects:
`WouldBlock` (checked in `flush`), `InvalidInput` (built for illegal frames)
and a stand-in for every other kind. -/
inductive IoError where
  | wouldBlock
  | invalidInput
  | otherErr
deriving DecidableEq

/-- Rust `futures::Async`: either a ready value or not ready. -/
inductive Async (α : Type) where
  | ready (a : α)
  | notReady
deriving DecidableEq

/-- Map over the ready value, as Rust `Async::map` does. -/
def Async.map {α β : Type} (f : α → β) : Async α → Async β
  | .ready a => .ready (f a)
  | .notReady => .notReady

/-- Rust `Poll<T, io::Error>` from futures 0.1 is `Result<Async<T>, io::Error>`. -/
abbrev Poll (α : Type) := Except IoError (Async α)

/-- Rust struct `http::MessageHead`: version, subject (request line or status
line) and headers. `Conn` itself only inspects `version` and moves the rest
through, so subject and headers are kept abstract as strings. -/
structure MessageHead where
  version : HttpVersion
  subject : String
  headers : List (String × String)
deriving DecidableEq

/-- Modelled from the spec: the tagged variants of `h1::Decoder` per section
4.3 (the `http::h1` module is not among the visible sources):
`Length(remaining) | Chunked | Eof(done) | Empty`. The internal chunk state is
not inspected by `Conn` and is omitted. -/
inductive Decoder where
  | length (remaining : Nat)
  | chunked
  | eof (done : Bool)
  | empty
deriving DecidableEq

/-- Modelled from the spec: `Decoder::is_eof` reports that the body is already
complete at installation time. Per section 4.3, `Empty` is immediately done,
`Length(0)` is done, and an `Eof` decoder with its done flag set is done. -/
def Decoder.is_eof : Decoder → Bool
  | .length 0 => true
  | .empty => true
  | .eof true => true
  | _ => false

/-- Modelled from the spec: the tagged variants of `h1::Encoder` per section 3:
`Length(remaining) | Chunked(in_chunk) | CloseDelimited`. `Conn` only stores an
encoder inside `Writing::Body` and never inspects it. -/
inductive Encoder where
  | length (remaining : Nat)
  | chunked (in_chunk : Bool)
  | closeDelimited
deriving DecidableEq

/-- Rust `http::Chunk` is a byte vector. -/
abbrev Chunk := List Nat

/-- Rust enum `tokio_proto::pipeline::Frame`, at the instantiation `Conn`
uses: `Message { message, body }`, `Body { chunk }`, `Error { error }`,
`Done`. -/
inductive Frame where
  | message (message : MessageHead) (body : Bool)
  | body (chunk : Option Chunk)
  | error (error : HError)
  | done
deriving DecidableEq

/-- Rust enum `Reading`: the reading half of the connection state. -/
inductive Reading where
  | init
  | body (d : Decoder)
  | keepAlive
  | closed
deriving DecidableEq

/-- Rust enum `Writing`: the writing half of the connection state. -/
inductive Writing where
  | init
  | body (e : Encoder)
  | keepAlive
  | closed
deriving DecidableEq

/-- Rust struct `State`: the `(Reading, Writing)` pair. -/
structure State where
  reading : Reading
  writing : Writing
deriving DecidableEq

/-- Rust `State::close`: set both halves to `Closed`. -/
def State.close (_s : State) : State := ⟨.closed, .closed⟩

/-- Rust `State::is_closed`: true exactly when both halves are `Closed`. -/
def State.is_closed (s : State) : Bool :=
  match s.reading, s.writing with
  | .closed, .closed => true
  | _, _ => false

/-- Rust struct `Conn<I, T>`. The transport is abstracted away: every
operation that touches it receives the observable outcome of the interaction
as an explicit argument. `readBuf` and `writeBuf` are the byte buffers of the
`IoBuf`. -/
structure Conn where
  readBuf : List Nat
  writeBuf : List Nat
  keep_alive_enabled : Bool
  state : State
deriving DecidableEq

/-- Rust `Conn::new`: empty buffers, keep-alive enabled, both halves `Init`. -/
def Conn.new : Conn :=
  { readBuf := []
    writeBuf := []
    keep_alive_enabled := true
    state := { reading := .init, writing := .init } }

/-- Rust `Conn::is_closed`. -/
def Conn.is_closed (c : Conn) : Bool := c.state.is_closed

/-- Rust `Conn::can_read_head`: true exactly in `Reading::Init`. -/
def Conn.can_read_head (c : Conn) : Bool :=
  match c.state.reading with
  | .init => true
  | _ => false

/-- Modelled from the spec: `Buffer::consume_leading_lines` (the buffer module
is not among the visible sources). Per section 4.1, it skips any leading run
of CR (13) or LF (10) bytes. -/
def consume_leading_lines (buf : List Nat) : List Nat :=
  buf.dropWhile (fun b => b == 13 || b == 10)

/-- Outcome of `self.parse()`, that is `IoBuf::parse::<T>()` (not among the
visible sources): `Ok(Some(head))` when a complete head was recognized,
`Ok(None)` when more bytes are needed, `Err(e)` on a parse failure. Buffer
consumption on the success path happens inside the missing `IoBuf::parse` and
is not inspected by `Conn`, so it is not modelled. -/
abbrev ParseResult := Except HError (Option MessageHead)

/-- Rust `Conn::read_head` (lines 68 to 115 of `conn.rs`). On `Ok(None)` the
result is `NotReady`. On a parse error the state is closed and the read
buffer, after consuming leading empty lines, decides between `Frame::Error`
(non-empty) and `Frame::Done` (empty). On a parsed head of version 1.0 or
1.1, `T::decoder` (supplied as `decoderFor`) either fails, closing the state
and emitting `Frame::Error`, or yields a decoder whose `is_eof` decides the
`body` flag and the next reading state; `writing` is set to `Init`. Any other
version closes the state and emits `Frame::Error(Version)`. -/
def Conn.read_head (c : Conn) (parseResult : ParseResult)
    (decoderFor : MessageHead → Except HError Decoder) : Conn × Poll Frame :=
  match parseResult with
  | .ok none => (c, .ok .notReady)
  | .error e =>
    let buf := consume_leading_lines c.readBuf
    let c1 : Conn := { c with state := c.state.close, readBuf := buf }
    if buf.isEmpty then (c1, .ok (.ready .done))
    else (c1, .ok (.ready (.error e)))
  | .ok (some head) =>
    match head.version with
    | .http10 | .http11 =>
      match decoderFor head with
      | .error e => ({ c with state := c.state.close }, .ok (.ready (.error e)))
      | .ok decoder =>
        let bodyReading : Bool × Reading :=
          if decoder.is_eof then (false, Reading.keepAlive)
          else (true, Reading.body decoder)
        ({ c with state := { reading := bodyReading.2, writing := .init } },
         .ok (.ready (.message head bodyReading.1)))
    | _ => ({ c with state := c.state.close }, .ok (.ready (.error .version)))

/-- Outcome of `decoder.decode(&mut self.io, &mut buf)` (the decoder is not
among the visible sources): on success, the decoded byte count `n`, the
decoder after its in-place mutation, and the contents of the 4 KiB scratch
buffer after decoding (it starts as `vec![0; 4096]` and `decode` overwrites a
prefix, so its length stays 4096); on failure, the propagated `io::Error`. -/
abbrev DecodeResult := Except IoError (Nat × Decoder × List Nat)

/-- Rust `Conn::read_body` (lines 117 to 137 of `conn.rs`). In
`Reading::Body`, a decode error is propagated unchanged by `try!`; on success
the scratch buffer is truncated to the decoded count `n` and emitted as
`Some` when `n > 0`, `None` when `n == 0`; the reading half keeps the
(mutated) decoder in `Body`. The `none` result models the `unimplemented!`
panic of the catch-all arm for non-`Body` states. -/
def Conn.read_body (c : Conn) (decodeResult : DecodeResult) :
    Conn × Option (Poll (Option Chunk)) :=
  match c.state.reading with
  | .body _ =>
    match decodeResult with
    | .error e => (c, some (.error e))
    | .ok (n, decoder, buf) =>
      let c1 : Conn := { c with state := { c.state with reading := .body decoder } }
      if n > 0 then (c1, some (.ok (.ready (some (buf.take n)))))
      else (c1, some (.ok (.ready none)))
  | _ => (c, none)

/-- Rust `Conn::read`, the `FramedIo::read` implementation (lines 156 to 169
of `conn.rs`): `Frame::Done` when the connection is closed, otherwise
`read_head` in `Reading::Init` and `read_body` (its chunk wrapped into
`Frame::Body`) in every other state. -/
def Conn.read (c : Conn) (parseResult : ParseResult)
    (decoderFor : MessageHead → Except HError Decoder)
    (decodeResult : DecodeResult) : Conn × Option (Poll Frame) :=
  if c.is_closed then (c, some (.ok (.ready .done)))
  else if c.can_read_head then
    let r := c.read_head parseResult decoderFor
    (r.1, some r.2)
  else
    let r := c.read_body decodeResult
    (r.1,
     match r.2 with
     | none => none
     | some (.error e) => some (.error e)
     | some (.ok a) => some (.ok (a.map (fun chunk => Frame.body chunk))))

/-- Rust `Conn::poll_read` (lines 147 to 154 of `conn.rs`): ready when the
reading half is closed, otherwise the read readiness of the transport,
supplied as input. -/
def Conn.poll_read (c : Conn) (transportPollRead : Async Unit) : Async Unit :=
  match c.state.reading with
  | .closed => .ready ()
  | _ => transportPollRead

/-- Rust `Conn::poll_write` (lines 171 to 175 of `conn.rs`): unconditionally
`Async::Ready(())`; the line consulting `self.io.transport.poll_write()` is
commented out in the source. -/
def Conn.poll_write (_c : Conn) : Async Unit := .ready ()

/-- Rust `Conn::write`, the `FramedIo::write` implementation (lines 177 to 243
of `conn.rs`). `encoded` is the serialization of the head produced by
`T::encode` (not among the visible sources); `io.write` appends to the write
buffer. In `Writing::Init`: a `Message` frame appends the encoded head and
resets the state to `(Init, Init)`; `Error` and `Done` close the state; a
`Body` frame closes the state and is rejected with `InvalidInput`. In
`Writing::Body`: `Body(Some(chunk))` appends the chunk, `Body(None)` does
nothing, `Message` is rejected with `InvalidInput` without touching the
state, `Error` and `Done` close the state. In `Writing::KeepAlive` or
`Writing::Closed`, every frame is rejected with `InvalidInput`. -/
def Conn.write (c : Conn) (frame : Frame) (encoded : List Nat) :
    Conn × Except IoError (Async Unit) :=
  match c.state.writing with
  | .init =>
    match frame with
    | .message _head _body =>
      ({ c with writeBuf := c.writeBuf ++ encoded,
                state := { writing := .init, reading := .init } },
       .ok (.ready ()))
    | .error _e => ({ c with state := c.state.close }, .ok (.ready ()))
    | .done => ({ c with state := c.state.close }, .ok (.ready ()))
    | .body _ =>
      ({ c with state := c.state.close }, .error .invalidInput)
  | .body _enc =>
    match frame with
    | .body (some chunk) =>
      ({ c with writeBuf := c.writeBuf ++ chunk }, .ok (.ready ()))
    | .body none => (c, .ok (.ready ()))
    | .message _ _ => (c, .error .invalidInput)
    | .error _e =>
      ({ c with state := { reading := .closed, writing := .closed } }, .ok (.ready ()))
    | .done =>
      ({ c with state := { reading := .closed, writing := .closed } }, .ok (.ready ()))
  | .keepAlive => (c, .error .invalidInput)
  | .closed => (c, .error .invalidInput)

/-- Rust `Conn::flush` (lines 245 to 259 of `conn.rs`): the outcome of
`self.io.flush()` (the `IoBuf` flush, which drains the write buffer into the
transport, is not among the visible sources) is supplied as input. Success is
`Ready`, `WouldBlock` becomes `NotReady`, every other error is surfaced. The
task unparking on the success path only touches the external scheduler and is
not modelled. -/
def Conn.flush (_c : Conn) (ioFlush : Except IoError Unit) : Poll Unit :=
  match ioFlush with
  | .ok () => .ok (.ready ())
  | .error .wouldBlock => .ok .notReady
  | .error e => .error e

end Hyper

namespace Hyper

/-- C9: `Conn::poll_write` reports `Ready` for every connection state and
every transport, never consulting transport write readiness. -/
theorem poll_write_always_ready (c : Conn) : c.poll_write = .ready () := rfl

/-- C3: writing a `Message` frame in `Writing::Init` serializes the head into
the write buffer but resets the state to `(Init, Init)`: no encoder is
installed and the writing half moves neither to `Body` nor to `KeepAlive`. -/
theorem write_message_resets_to_init :
    Conn.new.write (.message ⟨.http11, "200 OK", []⟩ true) [72, 73]
      = (⟨[], [72, 73], true, ⟨.init, .init⟩⟩, .ok (.ready ())) := rfl

/-- C5: in `Reading::Body` with the decoder reporting the body complete
(`decode` returns `Ok(0)`), `read` emits `Body { chunk: None }` but the
reading half stays in `Body(decoder)` instead of moving to `KeepAlive`. -/
theorem read_body_done_stays_in_body :
    ((⟨[], [], true, ⟨.body (.length 0), .init⟩⟩ : Conn).read
        (.ok none) (fun _ => .ok .empty) (.ok (0, .length 0, List.replicate 4096 0))).2
      = some (.ok (.ready (.body none))) ∧
    ((⟨[], [], true, ⟨.body (.length 0), .init⟩⟩ : Conn).read
        (.ok none) (fun _ => .ok .empty) (.ok (0, .length 0, List.replicate 4096 0))).1.state.reading
      = .body (.length 0) := ⟨rfl, rfl⟩

/-- C6: writing the end-of-body frame `Body { chunk: None }` in
`Writing::Body` is accepted but changes nothing: the writing half stays in
`Body(encoder)`, moving neither to `KeepAlive` nor to `Closed`. -/
theorem write_end_of_body_stays_in_body :
    (⟨[], [], true, ⟨.keepAlive, .body (.length 0)⟩⟩ : Conn).write (.body none) []
      = (⟨[], [], true, ⟨.keepAlive, .body (.length 0)⟩⟩, .ok (.ready ())) := rfl

/-- C7: `flush` converts a `WouldBlock` from the transport into `NotReady`,
but `read` in `Reading::Body` propagates a `WouldBlock` error from
`decoder.decode` to the caller as `Err` through `try!`; it has no `NotReady`
path at all. -/
theorem read_body_surfaces_would_block :
    Conn.flush Conn.new (.error .wouldBlock) = .ok .notReady ∧
    ((⟨[], [], true, ⟨.body (.eof false), .init⟩⟩ : Conn).read
        (.ok none) (fun _ => .ok .empty) (.error .wouldBlock)).2
      = some (.error .wouldBlock) := ⟨rfl, rfl⟩

/-- C8: `Conn::new` initializes `keep_alive_enabled` to `true`, but the flag
is never consulted: with the flag `false`, writing a response head still
resets both halves to `Init`, and a further request head is then parsed
successfully from the same connection. -/
theorem keep_alive_flag_ignored :
    Conn.new.keep_alive_enabled = true ∧
    ((⟨[], [], false, ⟨.keepAlive, .init⟩⟩ : Conn).write
        (.message ⟨.http11, "200 OK", []⟩ false) []).1.state = ⟨.init, .init⟩ ∧
    ((⟨[], [], false, ⟨.keepAlive, .init⟩⟩ : Conn).write
        (.message ⟨.http11, "200 OK", []⟩ false) []).1.keep_alive_enabled = false ∧
    ((⟨[], [], false, ⟨.init, .init⟩⟩ : Conn).read
        (.ok (some ⟨.http11, "GET /", []⟩)) (fun _ => .ok .empty) (.error .otherErr)).2
      = some (.ok (.ready (.message ⟨.http11, "GET /", []⟩ false))) :=
  ⟨rfl, rfl, rfl, rfl⟩

/-- C1: a `read` in `Reading::Init` whose head parse fails closes both
halves; it yields `Frame::Error` when the read buffer after consuming leading
empty lines is non-empty, and `Frame::Done` when that buffer is empty. -/
theorem read_parse_error_closes (c : Conn) (e : HError)
    (decoderFor : MessageHead → Except HError Decoder) (dr : DecodeResult)
    (h : c.state.reading = .init) :
    (c.read (.error e) decoderFor dr).1.state = ⟨.closed, .closed⟩ ∧
    (consume_leading_lines c.readBuf ≠ [] →
      (c.read (.error e) decoderFor dr).2 = some (.ok (.ready (.error e)))) ∧
    (consume_leading_lines c.readBuf = [] →
      (c.read (.error e) decoderFor dr).2 = some (.ok (.ready .done))) := by
  obtain ⟨rb, wb, ka, ⟨cr, cw⟩⟩ := c
  dsimp only at h
  subst h
  cases cw <;>
    rcases hbe : consume_leading_lines rb with _ | ⟨b, bs⟩ <;>
      simp [Conn.read, Conn.is_closed, State.is_closed, Conn.can_read_head,
            Conn.read_head, State.close, hbe]

/-- C1 witness: a concrete parse failure with bytes left after the leading
empty lines. -/
theorem read_parse_error_closes_witness :
    ((⟨[13, 10, 71], [], true, ⟨.init, .init⟩⟩ : Conn).state.reading = Reading.init) ∧
    ((((⟨[13, 10, 71], [], true, ⟨.init, .init⟩⟩ : Conn).read (.error .parse)
        (fun _ => .ok .empty) (.error .otherErr)).1.state = ⟨.closed, .closed⟩) ∧
     (consume_leading_lines [13, 10, 71] ≠ [] →
       ((⟨[13, 10, 71], [], true, ⟨.init, .init⟩⟩ : Conn).read (.error .parse)
          (fun _ => .ok .empty) (.error .otherErr)).2
         = some (.ok (.ready (.error .parse)))) ∧
     (consume_leading_lines [13, 10, 71] = [] →
       ((⟨[13, 10, 71], [], true, ⟨.init, .init⟩⟩ : Conn).read (.error .parse)
          (fun _ => .ok .empty) (.error .otherErr)).2
         = some (.ok (.ready .done)))) :=
  ⟨rfl, read_parse_error_closes _ .parse _ _ rfl⟩

end Hyper

namespace Hyper

/-- C2: a `read` in `Reading::Init` that parses an HTTP/1.0 or HTTP/1.1 head
whose decoder selection succeeds emits a `Message` frame whose body flag is
the negation of `is_eof`; the flag is true exactly when the reading half now
holds a decoder, namely `Body(decoder)` for a true flag and `KeepAlive` for a
false one. -/
theorem read_head_body_flag (c : Conn) (head : MessageHead) (d : Decoder)
    (decoderFor : MessageHead → Except HError Decoder) (dr : DecodeResult)
    (hr : c.state.reading = .init)
    (hv : head.version = .http10 ∨ head.version = .http11)
    (hd : decoderFor head = .ok d) :
    (c.read (.ok (some head)) decoderFor dr).2
        = some (.ok (.ready (.message head (!d.is_eof)))) ∧
    (c.read (.ok (some head)) decoderFor dr).1.state.reading
        = (if d.is_eof then Reading.keepAlive else Reading.body d) ∧
    ((!d.is_eof) = true ↔
      ∃ d2, (c.read (.ok (some head)) decoderFor dr).1.state.reading = .body d2) := by
  obtain ⟨rb, wb, ka, ⟨cr, cw⟩⟩ := c
  dsimp only at hr
  subst hr
  obtain ⟨v, subj, hs⟩ := head
  cases cw <;> rcases hv with hv | hv <;> dsimp only at hv <;> subst hv <;>
    cases hie : d.is_eof <;>
      simp [Conn.read, Conn.is_closed, State.is_closed, Conn.can_read_head,
            Conn.read_head, hd, hie]

/-- C2 witness: a concrete HTTP/1.1 head with a `Length(5)` decoder, so the
body flag is true and the reading half holds the decoder. -/
theorem read_head_body_flag_witness :
    (Conn.new.state.reading = Reading.init) ∧
    ((⟨.http11, "GET /", []⟩ : MessageHead).version = .http10 ∨
      (⟨.http11, "GET /", []⟩ : MessageHead).version = .http11) ∧
    ((fun _ : MessageHead => Except.ok (ε := HError) (Decoder.length 5)) ⟨.http11, "GET /", []⟩
        = .ok (.length 5)) ∧
    ((Conn.new.read (.ok (some ⟨.http11, "GET /", []⟩))
        (fun _ => .ok (.length 5)) (.error .otherErr)).2
      = some (.ok (.ready (.message ⟨.http11, "GET /", []⟩ (!(Decoder.length 5).is_eof)))) ∧
     (Conn.new.read (.ok (some ⟨.http11, "GET /", []⟩))
        (fun _ => .ok (.length 5)) (.error .otherErr)).1.state.reading
      = (if (Decoder.length 5).is_eof then Reading.keepAlive else Reading.body (.length 5)) ∧
     ((!(Decoder.length 5).is_eof) = true ↔
       ∃ d2, (Conn.new.read (.ok (some ⟨.http11, "GET /", []⟩))
          (fun _ => .ok (.length 5)) (.error .otherErr)).1.state.reading = .body d2)) :=
  ⟨rfl, Or.inr rfl, rfl,
   read_head_body_flag Conn.new ⟨.http11, "GET /", []⟩ (.length 5)
     (fun _ => .ok (.length 5)) (.error .otherErr) rfl (Or.inr rfl) rfl⟩

/-- C4: on a connection whose state is `(Closed, Closed)`, `read` returns
`Frame::Done` leaving the connection untouched, and `write` of any frame
other than `Done` is rejected with `InvalidInput` leaving the connection, and
hence its closed state, untouched. -/
theorem closed_read_done_write_rejected (c : Conn) (f : Frame)
    (encoded : List Nat) (pr : ParseResult)
    (decoderFor : MessageHead → Except HError Decoder) (dr : DecodeResult)
    (hc : c.state = ⟨.closed, .closed⟩) (hf : f ≠ .done) :
    c.read pr decoderFor dr = (c, some (.ok (.ready .done))) ∧
    c.write f encoded = (c, .error .invalidInput) := by
  obtain ⟨rb, wb, ka, ⟨cr, cw⟩⟩ := c
  injection hc with h1 h2
  subst h1
  subst h2
  cases f with
  | message m b =>
    exact ⟨rfl, rfl⟩
  | body ch =>
    exact ⟨rfl, rfl⟩
  | error e =>
    exact ⟨rfl, rfl⟩
  | done =>
    exact absurd rfl hf

/-- C4 witness: a concrete closed connection and a non-`Done` frame. -/
theorem closed_read_done_write_rejected_witness :
    ((⟨[], [], true, ⟨.closed, .closed⟩⟩ : Conn).state = ⟨.closed, .closed⟩) ∧
    (Frame.body none ≠ Frame.done) ∧
    ((⟨[], [], true, ⟨.closed, .closed⟩⟩ : Conn).read (.ok none)
        (fun _ => .ok .empty) (.error .otherErr)
      = (⟨[], [], true, ⟨.closed, .closed⟩⟩, some (.ok (.ready .done))) ∧
     (⟨[], [], true, ⟨.closed, .closed⟩⟩ : Conn).write (.body none) []
      = (⟨[], [], true, ⟨.closed, .closed⟩⟩, .error .invalidInput)) :=
  ⟨rfl, by decide,
   closed_read_done_write_rejected ⟨[], [], true, ⟨.closed, .closed⟩⟩ (.body none)
     [] (.ok none) (fun _ => .ok .empty) (.error .otherErr) rfl (by decide)⟩

/-- C10: in `Reading::Body`, a successful decode of `n` bytes emits the 4 KiB
scratch buffer truncated to `n`, as `Some` exactly when `n` is positive and
as `None` when `n` is zero; every emitted `Some` chunk is non-empty and holds
at most 4096 bytes. -/
theorem read_body_chunk_bounds (c : Conn) (d d2 : Decoder) (n : Nat)
    (buf : List Nat) (hr : c.state.reading = .body d) (hb : buf.length = 4096) :
    (c.read_body (.ok (n, d2, buf))).2
        = some (.ok (.ready (if n > 0 then some (buf.take n) else none))) ∧
    (0 < n → 0 < (buf.take n).length ∧ (buf.take n).length ≤ 4096) := by
  constructor
  · obtain ⟨rb, wb, ka, ⟨cr, cw⟩⟩ := c
    dsimp only at hr
    subst hr
    by_cases hn : n > 0 <;> simp [Conn.read_body, hn]
  · intro hn
    constructor
    · rw [List.length_take, hb]
      omega
    · rw [List.length_take, hb]
      omega

/-- C10 witness: three bytes decoded into a concrete 4096-byte buffer. -/
theorem read_body_chunk_bounds_witness :
    ((⟨[], [], true, ⟨.body (.length 7), .init⟩⟩ : Conn).state.reading
        = Reading.body (.length 7)) ∧
    ((List.replicate 4096 2).length = 4096) ∧
    (((⟨[], [], true, ⟨.body (.length 7), .init⟩⟩ : Conn).read_body
        (.ok (3, .length 4, List.replicate 4096 2))).2
      = some (.ok (.ready (if 3 > 0 then some ((List.replicate 4096 2).take 3) else none))) ∧
     (0 < 3 → 0 < ((List.replicate 4096 2).take 3).length ∧
        ((List.replicate 4096 2).take 3).length ≤ 4096)) :=
  ⟨rfl, List.length_replicate 4096 2,
   read_body_chunk_bounds ⟨[], [], true, ⟨.body (.length 7), .init⟩⟩
     (.length 7) (.length 4) 3 (List.replicate 4096 2) rfl (List.length_replicate 4096 2)⟩

end Hyper
